import Mathlib

/-!
# Verification of the mi-band-sleep-data-plotter pipeline

Shallow embedding of `src/main.py`: the loader (`load_data`), the filter
(`filter_data`) and the per-category plotting computations (`plot_dots`,
`plot_lines`, `plot_average_line`), together with a model of `main`'s
control flow (`runMain`).

Modelling choices:
* Calendar dates are represented by their rata-die day number (`rataDie`),
  computed from year/month/day with the standard civil-calendar algorithm;
  comparison of day numbers agrees with chronological comparison of dates,
  and pandas' Monday-first weekday index is `dayofweek`.
* Sleep durations are rationals (`ℚ`); pandas' float NaN (an undefined
  rolling mean or the mean of an empty column) is modelled by `Option ℚ`
  with `none` for NaN, since `matplotlib` draws nothing for NaN
  coordinates.
* A CSV that has already passed pandas' column typing is a `List RawRow`;
  the only modelled parse failure is a `date` string not matching
  `%Y-%m-%d`, which is what `pd.to_datetime(..., format=...)` rejects.
-/

set_option autoImplicit false

namespace MiBand

/-- Number of days in a month of the proleptic Gregorian calendar,
as validated by Python's `datetime` constructor. -/
def daysInMonth (y m : Nat) : Nat :=
  if m = 2 then
    (if y % 4 = 0 && (y % 100 != 0 || y % 400 = 0) then 29 else 28)
  else if m = 4 ∨ m = 6 ∨ m = 9 ∨ m = 11 then 30
  else 31

/-- Rata-die day number of a civil date (days since 0000-03-01 of the
proleptic Gregorian calendar, via the standard days-from-civil algorithm).
Strictly monotone in the date, so `Nat` comparison of day numbers is
chronological comparison. -/
def rataDie (y m d : Nat) : Nat :=
  let y' := if m ≤ 2 then y - 1 else y
  let era := y' / 400
  let yoe := y' % 400
  let mp := (m + 9) % 12
  let doy := (153 * mp + 2) / 5 + d - 1
  let doe := yoe * 365 + yoe / 4 - yoe / 100 + doy
  era * 146097 + doe

/-- Monday-first weekday index of a rata-die day number, matching pandas'
`Series.dt.dayofweek` (Monday = 0, …, Sunday = 6).
1970-01-01 (`rataDie 1970 1 1 = 719468`) is a Thursday (index 3). -/
def dayofweek (rata : Nat) : Nat := (rata + 2) % 7

/-- Split a character list on the dash separator (the semantics of
`str.split('-')`): the fragments strictly between the dashes. -/
def splitOnDash : List Char → List (List Char)
  | [] => [[]]
  | c :: rest =>
    if c = '-' then [] :: splitOnDash rest
    else
      match splitOnDash rest with
      | [] => [[c]]
      | g :: gs => (c :: g) :: gs

/-- Decimal value of a digit fragment. -/
def digitsVal (cs : List Char) : Nat :=
  cs.foldl (fun n c => 10 * n + (c.toNat - 48)) 0

/-- A non-empty all-digit fragment. -/
def isDigits (cs : List Char) : Bool :=
  !cs.isEmpty && cs.all Char.isDigit

/-- `datetime.datetime.strptime(s, '%Y-%m-%d')` as used by
`pd.to_datetime(df['date'], format='%Y-%m-%d')`: a 4-digit year ≥ 1, a
1–2 digit month in 1..12 and a 1–2 digit day valid for that month,
separated by literal dashes. Returns the rata-die day number, or `none`
on a parse failure (pandas raises, i.e. a ParseError). -/
def parseDate (s : String) : Option Nat :=
  match splitOnDash s.toList with
  | [ys, ms, ds] =>
    if isDigits ys && isDigits ms && isDigits ds then
      let y := digitsVal ys
      let m := digitsVal ms
      let d := digitsVal ds
      if ys.length = 4 ∧ 1 ≤ y ∧
         ms.length ≤ 2 ∧ 1 ≤ m ∧ m ≤ 12 ∧
         ds.length ≤ 2 ∧ 1 ≤ d ∧ d ≤ daysInMonth y m then
        some (rataDie y m d)
      else none
    else none
  | _ => none

/-- A CSV row after pandas' column typing: the `date` field still a string,
`start`/`stop` epoch seconds, sleep times in minutes. -/
structure RawRow where
  date : String
  start : Int
  stop : Int
  deepSleepTime : ℚ
  shallowSleepTime : ℚ
deriving DecidableEq, Repr

/-- A row of the loaded table: `date` as a rata-die day number,
`start`/`stop` as date-times (epoch seconds), sleep times in hours,
and the derived `totalSleepTime` column. -/
structure Row where
  date : Nat
  start : Int
  stop : Int
  deepSleepTime : ℚ
  shallowSleepTime : ℚ
  totalSleepTime : ℚ
deriving DecidableEq, Repr

/-- The row produced by `load_data`'s column transformations for one raw
row whose `date` parsed to day number `d`: minutes divided by 60, and
`totalSleepTime` derived as the sum of the two converted columns. -/
def mkRow (d : Nat) (r : RawRow) : Row :=
  { date := d
    start := r.start
    stop := r.stop
    deepSleepTime := r.deepSleepTime / 60
    shallowSleepTime := r.shallowSleepTime / 60
    totalSleepTime := r.deepSleepTime / 60 + r.shallowSleepTime / 60 }

/-- `load_data`: parse every `date`, divide the two sleep-time columns by
60, derive `totalSleepTime` as their sum.  A single malformed `date`
makes `pd.to_datetime` raise, so the whole load fails with a ParseError
and no table is produced. -/
def load_data : List RawRow → Except String (List Row)
  | [] => Except.ok []
  | r :: rs =>
    match parseDate r.date with
    | none =>
      Except.error ("ParseError: time data " ++ r.date ++
        " does not match format %Y-%m-%d")
    | some d =>
      match load_data rs with
      | Except.error e => Except.error e
      | Except.ok tl => Except.ok (mkRow d r :: tl)

/-- `filter_data`: keep rows with `date > after` (when given), then rows
with `date < before` (when given), then — when `exclude_weekends` — rows
whose Monday-first weekday index is < 5. -/
def filter_data (df : List Row) (after before : Option Nat)
    (exclude_weekends : Bool) : List Row :=
  let df₁ :=
    match after with
    | some a => df.filter (fun r => a < r.date)
    | none => df
  let df₂ :=
    match before with
    | some b => df₁.filter (fun r => r.date < b)
    | none => df₁
  if exclude_weekends then df₂.filter (fun r => dayofweek r.date < 5)
  else df₂

/-- The three sleep-time categories of `SLEEP_TIME_TYPES`. -/
inductive SleepTimeType where
  | totalSleepTime
  | shallowSleepTime
  | deepSleepTime
deriving DecidableEq, Repr

/-- `SLEEP_TIME_TYPES` in its insertion (and hence iteration) order. -/
def SLEEP_TIME_TYPES : List SleepTimeType :=
  [.totalSleepTime, .shallowSleepTime, .deepSleepTime]

/-- Column access `df[sleep_time_type]` for one row. -/
def col : SleepTimeType → Row → ℚ
  | .totalSleepTime, r => r.totalSleepTime
  | .shallowSleepTime, r => r.shallowSleepTime
  | .deepSleepTime, r => r.deepSleepTime

/-- `plot_dots`: one scatter point `(date, value)` per retained row. -/
def plot_dots (df : List Row) (t : SleepTimeType) : List (Nat × ℚ) :=
  df.map (fun r => (r.date, col t r))

/-- pandas `Series.rolling(w).mean()` at position `i` of the series `xs`:
the mean of the `w` values ending at position `i`, and NaN (`none`) while
fewer than `w` values are available. -/
def rolling_mean (xs : List ℚ) (w i : Nat) : Option ℚ :=
  if w ≤ i + 1 then some (((xs.take (i + 1)).drop (i + 1 - w)).sum / w)
  else none

/-- `plot_lines`: on a copy of `df`, add the `rollingMean` column
(window 5 when weekends are excluded, else 7) evaluated positionally over
the whole retained sequence, keep only Monday rows afterwards, and emit
one `plt.hlines` call `(rollingMean, date)` per remaining row.  The
original `df` is untouched (the code works on `df.copy()`). -/
def plot_lines (df : List Row) (exclude_weekends : Bool)
    (t : SleepTimeType) : List (Option ℚ × Nat) :=
  let rolling_window := if exclude_weekends then 5 else 7
  let vals := df.map (col t)
  let hlines_df := df.enum.map
    (fun p => (p.2, rolling_mean vals rolling_window p.1))
  let hlines_df := hlines_df.filter (fun p => dayofweek p.1.date == 0)
  hlines_df.map (fun p => (p.2, p.1.date))

/-- The segments actually visible on the figure: `plt.hlines` with a NaN
`y` draws nothing, so only calls whose rolling mean is defined produce a
line segment. -/
def drawnSegments (calls : List (Option ℚ × Nat)) : List (ℚ × Nat) :=
  calls.filterMap (fun c => c.1.map (fun v => (v, c.2)))

/-- `plot_average_line`: `df[sleep_time_type].mean()` — the arithmetic
mean of the column, NaN (`none`) for an empty table — passed to
`plt.axhline` (which draws nothing for NaN and does not crash). -/
def plot_average_line (df : List Row) (t : SleepTimeType) : Option ℚ :=
  if df.isEmpty then none
  else some ((df.map (col t)).sum / (df.length : ℚ))

/-- Everything `main`'s loop contributes to the figure for one category:
the scatter points, the `hlines` calls and the average-line height. -/
structure CategoryPlot where
  dots : List (Nat × ℚ)
  hlineCalls : List (Option ℚ × Nat)
  avgLine : Option ℚ
deriving DecidableEq, Repr

/-- One iteration of `main`'s plotting loop.  `plot_lines` mutates only
`df.copy()`, so the table handed to the rest of the loop is `df` itself. -/
def plotCategorySt (df : List Row) (exclude_weekends : Bool)
    (t : SleepTimeType) : CategoryPlot × List Row :=
  ({ dots := plot_dots df t
     hlineCalls := plot_lines df exclude_weekends t
     avgLine := plot_average_line df t }, df)

/-- `main`'s plotting loop over the categories, threading the table state
from one iteration to the next exactly as the Python loop body sees it. -/
def plotAll (ts : List SleepTimeType) (exclude_weekends : Bool)
    (df : List Row) : List CategoryPlot × List Row :=
  match ts with
  | [] => ([], df)
  | t :: rest =>
    let pr := plotCategorySt df exclude_weekends t
    let qr := plotAll rest exclude_weekends pr.2
    (pr.1 :: qr.1, qr.2)

/-- The combined row predicate the spec ascribes to the Filter: date
strictly greater than `after` when given, AND date strictly less than
`before` when given, AND — when weekends are excluded — a Monday-first
weekday index below 5. -/
def keepRow (after before : Option Nat) (exclude_weekends : Bool)
    (r : Row) : Bool :=
  after.all (fun x => decide (x < r.date)) &&
  before.all (fun x => decide (r.date < x)) &&
  (!exclude_weekends || decide (dayofweek r.date < 5))

/-- The spec's description of the weekly rolling-mean segments, stated
independently of `plot_lines`: at every position `i` of the full retained
sequence whose row is a Monday and which has at least `w` samples
available, one segment whose height is the mean of the `w` category
values ending at position `i`; a Monday with fewer than `w` samples
produces no segment. -/
def mondaySegmentsSpec (df : List Row) (w : Nat) (t : SleepTimeType) :
    List (ℚ × Nat) :=
  ((List.range df.length).zip df).filterMap (fun p =>
    if dayofweek p.2.date = 0 ∧ w ≤ p.1 + 1 then
      some ((((df.map (col t)).take (p.1 + 1)).drop (p.1 + 1 - w)).sum / w,
        p.2.date)
    else none)

/-- Observable outcome of one run of `main`. -/
structure RunResult where
  exitCode : Nat
  outputFileCreated : Bool
  imageWritten : Bool
  plots : List CategoryPlot
deriving DecidableEq, Repr

/-- `main`: `argparse.FileType('w')` opens the output path in write mode
while the arguments are parsed, creating (or truncating) the output file
before a single CSV row has been read; then the table is loaded, filtered
and plotted, and the image saved.  An unhandled ParseError from
`load_data` aborts the run with a non-zero exit code before anything is
drawn or saved. -/
def runMain (input : List RawRow) (after before : Option Nat)
    (exclude_weekends : Bool) : RunResult :=
  let outputFileCreated := true
  match load_data input with
  | Except.error _ =>
    { exitCode := 1
      outputFileCreated := outputFileCreated
      imageWritten := false
      plots := [] }
  | Except.ok df =>
    let fdf := filter_data df after before exclude_weekends
    { exitCode := 0
      outputFileCreated := outputFileCreated
      imageWritten := true
      plots := (plotAll SLEEP_TIME_TYPES exclude_weekends fdf).1 }

/-- A raw row whose `date` field uses slashes instead of dashes, so that
`%Y-%m-%d` parsing fails. -/
def badDateRow : RawRow := ⟨"2023/01/10", 1673301600, 1673330400, 120, 60⟩

/-- One-row CSV used to witness the loader invariant. -/
def c1Raws : List RawRow := [⟨"2023-01-02", 1672617600, 1672646400, 120, 60⟩]

/-- The table the loader produces from `c1Raws`. -/
def c1Df : List Row := [⟨738827, 1672617600, 1672646400, 2, 1, 3⟩]

/-- One-row CSV whose single date (2023-01-02) is excluded by
`--before 2023-01-01`, leaving an empty filtered table. -/
def c7Raws : List RawRow := [⟨"2023-01-02", 1672617600, 1672646400, 120, 60⟩]

/-- The table the loader produces from `c7Raws`. -/
def c7Df : List Row := [⟨738827, 1672617600, 1672646400, 2, 1, 3⟩]

/-- The end-to-end scenario input: 14 consecutive daily rows
(2023-01-02, a Monday, through 2023-01-15), every row with
`deepSleepTime = 120` and `shallowSleepTime = 60` minutes. -/
def c8Raw : List RawRow :=
  [⟨"2023-01-02", 0, 0, 120, 60⟩, ⟨"2023-01-03", 0, 0, 120, 60⟩,
   ⟨"2023-01-04", 0, 0, 120, 60⟩, ⟨"2023-01-05", 0, 0, 120, 60⟩,
   ⟨"2023-01-06", 0, 0, 120, 60⟩, ⟨"2023-01-07", 0, 0, 120, 60⟩,
   ⟨"2023-01-08", 0, 0, 120, 60⟩, ⟨"2023-01-09", 0, 0, 120, 60⟩,
   ⟨"2023-01-10", 0, 0, 120, 60⟩, ⟨"2023-01-11", 0, 0, 120, 60⟩,
   ⟨"2023-01-12", 0, 0, 120, 60⟩, ⟨"2023-01-13", 0, 0, 120, 60⟩,
   ⟨"2023-01-14", 0, 0, 120, 60⟩, ⟨"2023-01-15", 0, 0, 120, 60⟩]

/-- The table the loader produces from `c8Raw`: day numbers
738827..738840, each row 2 h deep, 1 h shallow, 3 h total. -/
def c8Df : List Row :=
  [⟨738827, 0, 0, 2, 1, 3⟩, ⟨738828, 0, 0, 2, 1, 3⟩,
   ⟨738829, 0, 0, 2, 1, 3⟩, ⟨738830, 0, 0, 2, 1, 3⟩,
   ⟨738831, 0, 0, 2, 1, 3⟩, ⟨738832, 0, 0, 2, 1, 3⟩,
   ⟨738833, 0, 0, 2, 1, 3⟩, ⟨738834, 0, 0, 2, 1, 3⟩,
   ⟨738835, 0, 0, 2, 1, 3⟩, ⟨738836, 0, 0, 2, 1, 3⟩,
   ⟨738837, 0, 0, 2, 1, 3⟩, ⟨738838, 0, 0, 2, 1, 3⟩,
   ⟨738839, 0, 0, 2, 1, 3⟩, ⟨738840, 0, 0, 2, 1, 3⟩]

/-! ## Helper lemmas -/

lemma dayofweek_lt_seven (d : Nat) : dayofweek d < 7 :=
  Nat.mod_lt _ (by norm_num)

lemma load_data_ok_total (raws : List RawRow) :
    ∀ df, load_data raws = Except.ok df →
      ∀ r ∈ df, r.totalSleepTime = r.deepSleepTime + r.shallowSleepTime := by
  induction raws with
  | nil =>
    intro df h r hr
    simp only [load_data, Except.ok.injEq] at h
    subst h
    simp at hr
  | cons x xs ih =>
    intro df h r hr
    unfold load_data at h
    cases hp : parseDate x.date with
    | none => rw [hp] at h; exact absurd h (by simp)
    | some d =>
      rw [hp] at h
      cases hl : load_data xs with
      | error e => rw [hl] at h; exact absurd h (by simp)
      | ok tl =>
        rw [hl] at h
        simp only [Except.ok.injEq] at h
        subst h
        rcases List.mem_cons.mp hr with hr | hr
        · subst hr; rfl
        · exact ih tl hl r hr

lemma load_data_error_of_bad (r : RawRow) (hd : parseDate r.date = none) :
    ∀ raws : List RawRow, r ∈ raws →
      ∃ e, load_data raws = Except.error e := by
  intro raws
  induction raws with
  | nil => intro hr; simp at hr
  | cons x xs ih =>
    intro hr
    rcases List.mem_cons.mp hr with h | h
    · subst h
      exact ⟨_, by unfold load_data; rw [hd]⟩
    · obtain ⟨e, he⟩ := ih h
      unfold load_data
      cases hp : parseDate x.date with
      | none => exact ⟨_, rfl⟩
      | some d => exact ⟨e, by rw [he]⟩

lemma filter_data_eq_keepRow (df : List Row) (a b : Option Nat)
    (ew : Bool) : filter_data df a b ew = df.filter (keepRow a b ew) := by
  have hcongr : ∀ p q : Row → Bool, (∀ r, p r = q r) →
      ∀ l : List Row, l.filter p = l.filter q :=
    fun p q h l => List.filter_congr (fun r _ => h r)
  rcases a with _ | x <;> rcases b with _ | y <;> cases ew
  · rw [show keepRow none none false = (fun _ : Row => true) from rfl,
      List.filter_true]
    rfl
  · rfl
  · exact hcongr _ _ (fun r => by
      cases h2 : decide (r.date < y) <;> simp [keepRow, Option.all, h2]) df
  · rw [show filter_data df none (some y) true =
        (df.filter (fun r => decide (r.date < y))).filter
          (fun r => decide (dayofweek r.date < 5)) from rfl,
      List.filter_filter]
    exact hcongr _ _ (fun r => by
      cases h2 : decide (r.date < y) <;>
      cases h3 : decide (dayofweek r.date < 5) <;>
      simp [keepRow, Option.all, h2, h3]) df
  · exact hcongr _ _ (fun r => by
      cases h1 : decide (x < r.date) <;> simp [keepRow, Option.all, h1]) df
  · rw [show filter_data df (some x) none true =
        (df.filter (fun r => decide (x < r.date))).filter
          (fun r => decide (dayofweek r.date < 5)) from rfl,
      List.filter_filter]
    exact hcongr _ _ (fun r => by
      cases h1 : decide (x < r.date) <;>
      cases h3 : decide (dayofweek r.date < 5) <;>
      simp [keepRow, Option.all, h1, h3]) df
  · rw [show filter_data df (some x) (some y) false =
        (df.filter (fun r => decide (x < r.date))).filter
          (fun r => decide (r.date < y)) from rfl,
      List.filter_filter]
    exact hcongr _ _ (fun r => by
      cases h1 : decide (x < r.date) <;>
      cases h2 : decide (r.date < y) <;>
      simp [keepRow, Option.all, h1, h2]) df
  · rw [show filter_data df (some x) (some y) true =
        ((df.filter (fun r => decide (x < r.date))).filter
          (fun r => decide (r.date < y))).filter
            (fun r => decide (dayofweek r.date < 5)) from rfl,
      List.filter_filter, List.filter_filter]
    exact hcongr _ _ (fun r => by
      cases h1 : decide (x < r.date) <;>
      cases h2 : decide (r.date < y) <;>
      cases h3 : decide (dayofweek r.date < 5) <;>
      simp [keepRow, Option.all, h1, h2, h3]) df

lemma plotAll_eq_map (df : List Row) (ew : Bool)
    (ts : List SleepTimeType) :
    plotAll ts ew df = (ts.map (fun t => (plotCategorySt df ew t).1), df) := by
  induction ts with
  | nil => rfl
  | cons t rest ih =>
    simp only [plotAll, plotCategorySt, List.map_cons]
    rw [ih]
    rfl

/-! ## Claims -/

/-- C1: every row of a successfully loaded table satisfies
`totalSleepTime = deepSleepTime + shallowSleepTime` (both already
converted to hours), and the invariant persists through filtering, the
only later transformation of the table. -/
theorem total_sleep_time_derived (raws : List RawRow) (df : List Row)
    (h : load_data raws = Except.ok df) :
    (∀ r ∈ df, r.totalSleepTime = r.deepSleepTime + r.shallowSleepTime) ∧
    ∀ a b : Option Nat, ∀ ew : Bool, ∀ r ∈ filter_data df a b ew,
      r.totalSleepTime = r.deepSleepTime + r.shallowSleepTime := by
  refine ⟨load_data_ok_total raws df h, ?_⟩
  intro a b ew r hr
  rw [filter_data_eq_keepRow] at hr
  exact load_data_ok_total raws df h r (List.mem_of_mem_filter hr)

/-- Witness for C1 at the one-row table loaded from `c1Raws`. -/
theorem total_sleep_time_derived_witness :
    (⟨738827, 1672617600, 1672646400, 2, 1, 3⟩ : Row).totalSleepTime =
      (⟨738827, 1672617600, 1672646400, 2, 1, 3⟩ : Row).deepSleepTime +
        (⟨738827, 1672617600, 1672646400, 2, 1, 3⟩ : Row).shallowSleepTime :=
  (total_sleep_time_derived c1Raws c1Df (by with_unfolding_all rfl)).1
    ⟨738827, 1672617600, 1672646400, 2, 1, 3⟩ (List.mem_singleton.mpr rfl)

/-- C2: the filter keeps a row iff its date is strictly greater than
`after` when given, AND strictly less than `before` when given (so a row
whose date equals a bound is excluded), AND — when weekends are
excluded — its weekday index is below 5; absent bounds impose nothing. -/
theorem filter_bounds_strict_and (df : List Row) (a b : Option Nat)
    (ew : Bool) :
    filter_data df a b ew = df.filter (fun r =>
      a.all (fun x => decide (x < r.date)) &&
      b.all (fun x => decide (r.date < x)) &&
      (!ew || decide (dayofweek r.date < 5))) :=
  filter_data_eq_keepRow df a b ew

/-- C3: filtering with `excludeWeekends = true` (and no date bounds)
removes exactly the rows whose Monday-first weekday index is 5
(Saturday) or 6 (Sunday), and the result is a sublist of the input, so
the relative order of the remaining rows is preserved. -/
theorem exclude_weekends_removes_weekends (df : List Row) :
    (filter_data df none none true).Sublist df ∧
    filter_data df none none true =
      df.filter (fun r =>
        !(dayofweek r.date == 5 || dayofweek r.date == 6)) := by
  constructor
  · show (df.filter _).Sublist df
    exact List.filter_sublist df
  · show df.filter _ = df.filter _
    refine List.filter_congr (fun r _ => ?_)
    have h := dayofweek_lt_seven r.date
    revert h
    generalize dayofweek r.date = k
    intro h
    interval_cases k <;> rfl

/-- C4: the visible rolling-mean segments of `plot_lines` are exactly
those described by the spec: window size 5 when weekends are excluded
and 7 otherwise, the mean taken positionally over the full retained
sequence (Mondays are selected only afterwards), and a Monday position
with fewer than window-size samples produces no segment. -/
theorem monday_segments_rolling_window (df : List Row) (ew : Bool)
    (t : SleepTimeType) :
    drawnSegments (plot_lines df ew t) =
      mondaySegmentsSpec df (if ew then 5 else 7) t := by
  simp only [drawnSegments, plot_lines, mondaySegmentsSpec,
    ← List.enum_eq_zip_range, List.filterMap_map, List.filterMap_filter]
  refine congrArg (fun f => List.filterMap f df.enum) (funext fun p => ?_)
  simp only [Function.comp]
  by_cases h1 : dayofweek p.2.date = 0
  · by_cases h2 : (if ew then 5 else 7) ≤ p.1 + 1
    · simp [h1, h2, rolling_mean]
    · simp [h1, h2, rolling_mean]
  · simp [h1]

/-- C5: filtering twice with the same `after`, `before` and
`excludeWeekends` arguments yields the same table as filtering once. -/
theorem filter_idempotent (df : List Row) (a b : Option Nat) (ew : Bool) :
    filter_data (filter_data df a b ew) a b ew =
      filter_data df a b ew := by
  rw [filter_data_eq_keepRow, filter_data_eq_keepRow, List.filter_filter]
  exact List.filter_congr (fun r _ => by
    cases h : keepRow a b ew r <;> simp [h])

/-- C6 (counterexample): on the one-row CSV whose date is `2023/01/10`,
the run does fail with a ParseError and a non-zero exit code, but the
output file *is* created: `argparse.FileType('w')` opens (creates or
truncates) the output path while the arguments are parsed, before the
CSV is read, so the claim that no output file exists after the failure
is false. -/
theorem malformed_date_creates_output_file :
    parseDate badDateRow.date = none ∧
    (runMain [badDateRow] none none false).exitCode ≠ 0 ∧
    ¬((runMain [badDateRow] none none false).outputFileCreated = false) := by
  decide

/-- C6 (amended): a malformed `date` field anywhere in the input makes
the run fail with a ParseError and a non-zero exit code, and no image
content is written (nothing is plotted or saved); however the output
file itself has already been created, empty, by argument parsing. -/
theorem malformed_date_aborts_run (input : List RawRow) (r : RawRow)
    (a b : Option Nat) (ew : Bool) (hr : r ∈ input)
    (hd : parseDate r.date = none) :
    (runMain input a b ew).exitCode ≠ 0 ∧
    (runMain input a b ew).imageWritten = false ∧
    (runMain input a b ew).plots = [] ∧
    (runMain input a b ew).outputFileCreated = true := by
  obtain ⟨e, he⟩ := load_data_error_of_bad r hd input hr
  unfold runMain
  rw [he]
  exact ⟨Nat.one_ne_zero, rfl, rfl, rfl⟩

/-- Witness for the amended C6 at the concrete malformed input. -/
theorem malformed_date_aborts_run_witness :
    (runMain [badDateRow] none none false).exitCode ≠ 0 ∧
    (runMain [badDateRow] none none false).imageWritten = false ∧
    (runMain [badDateRow] none none false).plots = [] ∧
    (runMain [badDateRow] none none false).outputFileCreated = true :=
  malformed_date_aborts_run [badDateRow] badDateRow none none false
    (List.mem_singleton.mpr rfl) (by decide)

/-- C7: when the filtered table is empty the pipeline still completes
(exit code 0, image written): every category contributes no scatter
points, no `hlines` calls and a NaN (`none`) average, none of which
aborts the run. -/
theorem empty_table_renders_valid_plots (input : List RawRow)
    (a b : Option Nat) (ew : Bool) (df : List Row)
    (h1 : load_data input = Except.ok df)
    (h2 : filter_data df a b ew = []) :
    runMain input a b ew =
      { exitCode := 0, outputFileCreated := true, imageWritten := true,
        plots := [⟨[], [], none⟩, ⟨[], [], none⟩, ⟨[], [], none⟩] } := by
  unfold runMain
  rw [h1]
  simp only [h2]
  rfl

/-- Witness for C7: the single 2023-01-02 row is excluded by
`--before 2023-01-01`, leaving an empty table, and the run completes. -/
theorem empty_table_renders_valid_plots_witness :
    runMain c7Raws none (some 738826) false =
      { exitCode := 0, outputFileCreated := true, imageWritten := true,
        plots := [⟨[], [], none⟩, ⟨[], [], none⟩, ⟨[], [], none⟩] } :=
  empty_table_renders_valid_plots c7Raws none (some 738826) false c7Df
    (by with_unfolding_all rfl) (by with_unfolding_all decide)

/-- C8: on 14 consecutive daily rows (2023-01-02 … 2023-01-15) with
`deepSleepTime = 120` and `shallowSleepTime = 60` minutes each and the
window-7 configuration, every loaded row has `totalSleepTime = 3` hours;
the first Monday's rolling mean is undefined and draws nothing while the
second Monday (2023-01-09) has rolling mean 3 for the Total category,
and the Total average line sits at 3. -/
theorem fourteen_day_scenario :
    load_data c8Raw = Except.ok c8Df ∧
    (∀ r ∈ c8Df, r.totalSleepTime = 3) ∧
    plot_lines c8Df false SleepTimeType.totalSleepTime =
      [(none, rataDie 2023 1 2), (some 3, rataDie 2023 1 9)] ∧
    drawnSegments (plot_lines c8Df false SleepTimeType.totalSleepTime) =
      [(3, rataDie 2023 1 9)] ∧
    plot_average_line c8Df SleepTimeType.totalSleepTime = some 3 := by
  refine ⟨by with_unfolding_all rfl, by with_unfolding_all decide,
    by with_unfolding_all decide, by with_unfolding_all decide,
    by with_unfolding_all decide⟩

/-- C9: the plotting loop never modifies the filtered table: after any
prefix of categories the threaded table is still `df`, so every category
(and its average line) is computed from the same unchanged table, as if
independently. -/
theorem plot_loop_preserves_table (df : List Row) (ew : Bool)
    (ts : List SleepTimeType) :
    plotAll ts ew df =
      (ts.map (fun t => (plotCategorySt df ew t).1), df) :=
  plotAll_eq_map df ew ts

/-- C10: with no bounds and weekends kept, the filter returns the table
unchanged. -/
theorem filter_no_constraints_identity (df : List Row) :
    filter_data df none none false = df := rfl

end MiBand
